import Mathlib

/-
Verification of the ingestion, normalization, filter and aggregation core of
the Chicago crime dashboard (src/app.py, with the fp3 variant loader).
Pandas tables are shallowly embedded: a column is a list of cell values, a
dataframe is an association list of named columns, and the row-level filter
and aggregation pipeline operates on lists of incident rows.
-/

namespace Crimes

/-- Cell value of a raw pandas column, as the tagged union of the encodings
occurring in the source CSVs per the data model: free text, integers,
integer-valued floats (the form nullable numeric ID columns take after a
CSV read), booleans, and missing values. -/
inductive Raw
  | rstr (s : String)
  | rint (n : Int)
  | rfloat (n : Int)
  | rbool (b : Bool)
  | rnull
deriving DecidableEq

/-- Python str() of a cell, as produced by Series.astype(str): an
integer-valued float keeps a trailing ".0" and a missing value renders as
the string "nan". -/
def pyStr : Raw → String
  | .rstr s => s
  | .rint n => toString n
  | .rfloat n => toString n ++ ".0"
  | .rbool b => if b then "True" else "False"
  | .rnull => "nan"

/-- Python str.strip(): drop whitespace from both ends of the string. -/
def pythonStrip (s : String) : String :=
  String.mk (((s.data.dropWhile Char.isWhitespace).reverse.dropWhile
    Char.isWhitespace).reverse)

/-- Python str.upper(): uppercase every character. -/
def pyUpper (s : String) : String :=
  String.mk (s.data.map Char.toUpper)

/-- pandas Series.astype("string"): conversion to the nullable string dtype;
missing values stay missing, every other value takes its str() form. -/
def astypeString : Raw → Option String
  | .rstr s => some s
  | .rint n => some (toString n)
  | .rfloat n => some (toString n ++ ".0")
  | .rbool b => some (if b then "True" else "False")
  | .rnull => none

/-- The astype("string") conversion of one cell, kept inside `Raw` so that it
can serve as a column transformation (src/app.py lines 146 to 148). -/
def astypeStringCell (r : Raw) : Raw :=
  match astypeString r with
  | some s => .rstr s
  | none => .rnull

/-- The membership list of the flag normalization
(src/app.py line 158): isin(["TRUE", "T", "1", "YES", "Y"]). -/
def truthTokens : List String := ["TRUE", "T", "1", "YES", "Y"]

/-- Flag normalization of the Arrest and Domestic columns
(src/app.py lines 151 to 159):
astype(str).str.strip().str.upper().isin(truthTokens). -/
def normalizeFlag (r : Raw) : Bool :=
  decide (pyUpper (pythonStrip (pyStr r)) ∈ truthTokens)

/-- Case-insensitive equality of strings, by comparing uppercase forms. -/
def eqCaseInsensitive (a b : String) : Bool :=
  pyUpper a == pyUpper b

/-- A parsed timestamp, the embedding of one cell of a datetime64 pandas
column: calendar fields down to the hour, which is the finest granularity
any derived column of the app reads. -/
structure TS where
  year : Int
  month : Nat
  day : Nat
  hour : Nat
deriving DecidableEq

/-- A pandas column: either an object-dtype column of raw cells or a
datetime64 column of nullable timestamps. -/
inductive Col
  | rawCol (vals : List Raw)
  | dtCol (vals : List (Option TS))
deriving DecidableEq

/-- A pandas dataframe: named columns in order. -/
abbrev DTable := List (String × Col)

/-- Column lookup, as in df[name] or the test (name in df.columns). -/
def getCol : DTable → String → Option Col
  | [], _ => none
  | (n, c) :: rest, name => if n = name then some c else getCol rest name

/-- Column assignment df[name] = col: replace the column in place when the
name exists, append a new column otherwise. -/
def setCol : DTable → String → Col → DTable
  | [], name, c => [(name, c)]
  | (n, c0) :: rest, name, c =>
    if n = name then (n, c) :: rest else (n, c0) :: setCol rest name c

/-- Number of cells in a column. -/
def colLen : Col → Nat
  | .rawCol vs => vs.length
  | .dtCol vs => vs.length

/-- Length of a dataframe, len(df): the common length of its columns. -/
def dfLen : DTable → Nat
  | [] => 0
  | (_, c) :: _ => colLen c

/-- The Date-column step of src/app.py lines 133 to 135: when the column is
already datetime64 it is kept (the is_datetime64_any_dtype guard), otherwise
pd.to_datetime(..., errors="coerce") parses each cell, nulling failures.
The parser itself is the external pandas date parser, taken as a
parameter. -/
def toDatetime (parse : Raw → Option TS) : Col → List (Option TS)
  | .dtCol vs => vs
  | .rawCol vs => vs.map parse

/-- Series.dt.year: null-propagating year extraction. -/
def cellYear : Option TS → Raw
  | some t => .rint t.year
  | none => .rnull

/-- Series.dt.month: null-propagating month extraction. -/
def cellMonth : Option TS → Raw
  | some t => .rint (Int.ofNat t.month)
  | none => .rnull

/-- Series.dt.to_period("M").dt.to_timestamp(): truncate a timestamp to the
first instant of its month. -/
def monthStart : Option TS → Option TS
  | some t => some ⟨t.year, t.month, 1, 0⟩
  | none => none

/-- Series.dt.hour: null-propagating hour extraction. -/
def cellHour : Option TS → Raw
  | some t => .rint (Int.ofNat t.hour)
  | none => .rnull

/-- Full English weekday name of a timestamp (Series.dt.day_name()),
computed from the Gregorian calendar. -/
def dayName (t : TS) : String :=
  let a : Int := (14 - (t.month : Int)) / 12
  let y : Int := t.year - a
  let m : Int := (t.month : Int) + 12 * a - 2
  let d : Int := ((t.day : Int) + y + y / 4 - y / 100 + y / 400 + (31 * m) / 12) % 7
  if d = 0 then "Sunday"
  else if d = 1 then "Monday"
  else if d = 2 then "Tuesday"
  else if d = 3 then "Wednesday"
  else if d = 4 then "Thursday"
  else if d = 5 then "Friday"
  else "Saturday"

/-- Series.dt.day_name() applied to one nullable cell. -/
def cellWeekday : Option TS → Raw
  | some t => .rstr (dayName t)
  | none => .rnull

/-- Textual rendering of one timestamp, used when a datetime cell is
converted to a string dtype. -/
def showTS (t : TS) : String :=
  toString t.year ++ "-" ++ toString t.month ++ "-" ++ toString t.day ++
    " " ++ toString t.hour ++ ":00:00"

/-- View of one nullable datetime cell as a raw cell. -/
def tsToRaw : Option TS → Raw
  | some t => .rstr (showTS t)
  | none => .rnull

/-- Column-level astype("string"), the geographic ID normalization of
src/app.py lines 146 to 148. -/
def stringCol : Col → Col
  | .rawCol vs => .rawCol (vs.map astypeStringCell)
  | .dtCol vs => .rawCol (vs.map (fun o => astypeStringCell (tsToRaw o)))

/-- Column-level flag normalization of src/app.py lines 151 to 159: the
column becomes boolean, never null. -/
def flagCol : Col → Col
  | .rawCol vs => .rawCol (vs.map (fun r => .rbool (normalizeFlag r)))
  | .dtCol vs => .rawCol (vs.map (fun o => .rbool (normalizeFlag (tsToRaw o))))

/-- pd.to_numeric(cell, errors="coerce") on one cell. Decimal strings with a
nonzero fractional part fall outside the integer-valued float fragment this
embedding covers; the Year column this conversion is applied to carries
integer-formed values. -/
def toNumericCell : Raw → Raw
  | .rstr s => match (pythonStrip s).toInt? with
    | some n => .rint n
    | none => .rnull
  | .rint n => .rint n
  | .rfloat n => .rfloat n
  | .rbool b => .rint (if b then 1 else 0)
  | .rnull => .rnull

/-- pd.to_numeric(col, errors="coerce") on an object column. -/
def toNumericCol : Col → Col
  | .rawCol vs => .rawCol (vs.map toNumericCell)
  | .dtCol vs => .dtCol vs

/-- The (if col in df.columns) guard around a column rewrite: missing
columns are skipped silently. -/
def applyIfPresent (f : Col → Col) (name : String) (df : DTable) : DTable :=
  match getCol df name with
  | some c => setCol df name (f c)
  | none => df

/-- Temporal feature derivation, src/app.py lines 132 to 143: when a Date
column exists, parse it (unless already datetime64) and derive Year, Month,
YearMonth, Weekday and Hour from it; otherwise coerce an existing Year
column to numeric. -/
def deriveTemporal (parse : Raw → Option TS) (df : DTable) : DTable :=
  match getCol df "Date" with
  | some c =>
    let ts := toDatetime parse c
    setCol (setCol (setCol (setCol (setCol (setCol df
      "Date" (Col.dtCol ts))
      "Year" (Col.rawCol (ts.map cellYear)))
      "Month" (Col.rawCol (ts.map cellMonth)))
      "YearMonth" (Col.dtCol (ts.map monthStart)))
      "Weekday" (Col.rawCol (ts.map cellWeekday)))
      "Hour" (Col.rawCol (ts.map cellHour))
  | none =>
    match getCol df "Year" with
    | some c => setCol df "Year" (toNumericCol c)
    | none => df

/-- The Feature Deriver, src/app.py lines 132 to 161: temporal derivation,
then astype("string") on each geographic ID column present, then flag
normalization on Arrest and Domestic when present. -/
def derive (parse : Raw → Option TS) (df : DTable) : DTable :=
  applyIfPresent flagCol "Domestic"
    (applyIfPresent flagCol "Arrest"
      (applyIfPresent stringCol "Beat"
        (applyIfPresent stringCol "Community Area"
          (applyIfPresent stringCol "Ward"
            (applyIfPresent stringCol "District"
              (deriveTemporal parse df))))))

/-- A trivial date parser used to instantiate witnesses: parses nothing. -/
def parse0 : Raw → Option TS := fun _ => none

/-- Dataframe with one raw Date cell, used to instantiate witnesses. -/
def df0 : DTable := [("Date", Col.rawCol [Raw.rstr "2019-05-03"])]

/-- The error taxonomy of the loaders: an unregistered year hits the
YEAR_TO_FILE dict (KeyError), a registered year whose file is unreadable
hits pd.read_csv (a file error). Either models a raised exception. -/
inductive LoadError
  | keyError
  | fileNotFound
deriving DecidableEq

/-- YEAR_TO_FILE, src/app.py lines 114 to 117: one CSV path per year of the
supported range 2010 to 2020; absent keys raise KeyError on access. -/
def yearToFile (year : Int) : Option String :=
  if 2010 ≤ year ∧ year ≤ 2020 then
    some ("project/data/Crimes_" ++ toString year ++ ".csv")
  else none

/-- The file store the loaders read from: a path is mapped to the table its
CSV parses to, or to nothing when the file is absent or unreadable. -/
structure FileSystem where
  find : String → Option DTable

/-- load_year_data of src/app.py lines 119 to 124: YEAR_TO_FILE[year]
followed by pd.read_csv(path). Both lookups raise on failure; the result is
the raw table. -/
def load_year_data (fs : FileSystem) (year : Int) : Except LoadError DTable :=
  match yearToFile year with
  | none => Except.error LoadError.keyError
  | some path =>
    match fs.find path with
    | some df => Except.ok df
    | none => Except.error LoadError.fileNotFound

/-- The cleaning applied by the fp3 variant loader after a successful read
(src/project/project fp3/app.py lines 145 to 162): date parsing with
derived Year, Month, YearMonth and Hour, a constant Year column when
neither Date nor Year exists, and astype("string") on Primary Type and
District. -/
def fp3Clean (parse : Raw → Option TS) (year : Int) (df : DTable) : DTable :=
  let df1 :=
    match getCol df "Date" with
    | some c =>
      let ts := toDatetime parse c
      setCol (setCol (setCol (setCol (setCol df
        "Date" (Col.dtCol ts))
        "Year" (Col.rawCol (ts.map cellYear)))
        "Month" (Col.rawCol (ts.map cellMonth)))
        "YearMonth" (Col.dtCol (ts.map monthStart)))
        "Hour" (Col.rawCol (ts.map cellHour))
    | none =>
      match getCol df "Year" with
      | some _ => df
      | none => setCol df "Year" (Col.rawCol (List.replicate (dfLen df) (Raw.rint year)))
  applyIfPresent stringCol "District" (applyIfPresent stringCol "Primary Type" df1)

/-- load_year_data of the fp3 variant (src/project/project fp3/app.py lines
132 to 162): an unregistered year still raises KeyError, but a registered
year whose file is missing returns an empty dataframe after showing an
error message (the Bool component records that the message was shown). -/
def load_year_data_fp3 (parse : Raw → Option TS) (fs : FileSystem) (year : Int) :
    Except LoadError (DTable × Bool) :=
  match yearToFile year with
  | none => Except.error LoadError.keyError
  | some path =>
    match fs.find path with
    | some df => Except.ok (fp3Clean parse year df, false)
    | none => Except.ok ([], true)

/-- A file store with no accessible files. -/
def emptyFS : FileSystem := ⟨fun _ => none⟩

/-- An incident row of the assembled table, with the columns the filter and
aggregation pipeline reads. Category and geographic cells are nullable
strings (post-normalization form), the flags are booleans (normalizeFlag is
total) and the coordinates are nullable. -/
structure Row where
  primaryType : Option String
  district : Option String
  locationDescription : Option String
  arrest : Bool
  domestic : Bool
  latitude : Option Int
  longitude : Option Int
deriving DecidableEq

/-- Lexicographic comparison of character lists by code point. -/
def charListLe : List Char → List Char → Bool
  | [], _ => true
  | _ :: _, [] => false
  | c :: cs, d :: ds =>
    if c.toNat < d.toNat then true
    else if d.toNat < c.toNat then false
    else charListLe cs ds

/-- The ordering Python sorted() applies to strings: lexicographic by code
point. -/
def strLe (a b : String) : Bool := charListLe a.data b.data

/-- Insert a string into a sorted list of strings. -/
def insertSorted (x : String) : List String → List String
  | [] => [x]
  | y :: ys => if strLe x y then x :: y :: ys else y :: insertSorted x ys

/-- Python sorted() on a list of strings, as an insertion sort under
`strLe`. -/
def sortStrings (l : List String) : List String := l.foldr insertSorted []

/-- sorted(df[col].dropna().unique().tolist()), the option list offered for
one filter dimension (src/app.py lines 440, 455, 467): distinct non-null
values of the column, sorted. -/
def availableVals (get : Row → Option String) (rows : List Row) : List String :=
  sortStrings ((rows.filterMap get).dedup)

/-- One conditional isin filter of src/app.py lines 483 to 492: an empty
selection applies no restriction, a non-empty selection keeps the rows
whose cell is a member; a null cell is never a member. -/
def applyIsin (get : Row → Option String) (sel : List String) (rows : List Row) :
    List Row :=
  if sel.isEmpty then rows
  else rows.filter (fun r =>
    match get r with
    | some v => sel.contains v
    | none => false)

/-- Sorted distinct non-null primary types of a table, the group keys pandas
groupby("Primary Type") produces (null keys are dropped, keys sorted). -/
def groupKeys (rows : List Row) : List String :=
  sortStrings ((rows.filterMap Row.primaryType).dedup)

/-- groupby("Primary Type", as_index=False).size() of src/app.py lines 566
to 571: per-group row counts. -/
def countBy (rows : List Row) : List (String × Nat) :=
  (groupKeys rows).map (fun k =>
    (k, (rows.filter (fun r => r.primaryType == some k)).length))

/-- groupby("Primary Type")["Arrest"].mean() of src/app.py lines 761 to
766: the arrest rate per primary type, the mean of a boolean column as an
exact rational. -/
def rateBy (rows : List Row) : List (String × ℚ) :=
  (groupKeys rows).map (fun k =>
    (k, ((rows.filter (fun r => r.primaryType == some k && r.arrest)).length : ℚ) /
      ((rows.filter (fun r => r.primaryType == some k)).length : ℚ)))

/-- One step of the pseudo-random number stream behind DataFrame.sample
(a linear congruential generator standing in for numpy's generator; no
claim depends on the exact constants). -/
def lcgNext (s : Nat) : Nat := (1103515245 * s + 12345) % 2147483648

/-- Seeded selection without replacement: repeatedly pick the next index
from the pseudo-random stream and remove the picked row. -/
def permAux {α : Type} : Nat → Nat → List α → List α
  | 0, _, _ => []
  | Nat.succ fuel, s, xs =>
    if h : xs.length = 0 then []
    else
      let i := s % xs.length
      xs.get ⟨i, Nat.mod_lt s (Nat.pos_of_ne_zero h)⟩ ::
        permAux fuel (lcgNext s) (xs.eraseIdx i)

/-- The full seeded shuffle of a list. -/
def randPerm {α : Type} (seed : Nat) (xs : List α) : List α :=
  permAux xs.length seed xs

/-- DataFrame.sample raises ValueError when asked for more rows than the
frame has (replace=False). -/
inductive SampleError
  | valueError
deriving DecidableEq

/-- DataFrame.sample(n, random_state=seed): n rows drawn without
replacement, deterministically from the seed; ValueError when n exceeds
the number of rows. -/
def sampleCore {α : Type} (seed n : Nat) (xs : List α) : Except SampleError (List α) :=
  if n > xs.length then Except.error SampleError.valueError
  else Except.ok ((randPerm seed xs).take n)

/-- DataFrame.sample with its random_state argument: a fixed random_state
ignores the ambient numpy random state, random_state=None draws from it
and advances it. -/
def sampleStep {α : Type} (randomState : Option Nat) (globalRng : Nat) (n : Nat)
    (xs : List α) : Except SampleError (List α) × Nat :=
  match randomState with
  | some s => (sampleCore s n xs, globalRng)
  | none => (sampleCore globalRng n xs, lcgNext globalRng)

/-- dropna(subset=["Latitude", "Longitude"]): keep the coordinate-complete
rows. -/
def dropnaLatLon (rows : List Row) : List Row :=
  rows.filter (fun r => r.latitude.isSome && r.longitude.isSome)

/-- The spatial sub-sampling of src/app.py lines 671 to 674: sample_size is
min(5000, len(filtered)); when len(filtered) exceeds it, sample that many
rows with random_state=42 from the coordinate-complete subset, otherwise
return the coordinate-complete subset directly. -/
def spatialSample (rows : List Row) : Except SampleError (List Row) :=
  if rows.length > min 5000 rows.length then
    sampleCore 42 (min 5000 rows.length) (dropnaLatLon rows)
  else
    Except.ok (dropnaLatLon rows)

/-- Row constructor helper: a row carrying only categorical cells. -/
def mkRow (pt d loc : Option String) : Row :=
  { primaryType := pt, district := d, locationDescription := loc,
    arrest := false, domestic := false, latitude := none, longitude := none }

/-- A row with full coordinates, used to instantiate witnesses. -/
def coordRow : Row :=
  { primaryType := some "THEFT", district := some "1",
    locationDescription := some "STREET", arrest := true, domestic := false,
    latitude := some 41, longitude := some (-87) }

/-- Two-row table whose second row has a null District, separating the
select-all predicate from the empty predicate. -/
def cexTable : List Row :=
  [mkRow (some "THEFT") (some "1") none, mkRow (some "THEFT") none none]

/-- One-row table with a null Primary Type. -/
def nullTypeTable : List Row := [mkRow none (some "1") none]

/-- Table with all cells present, used to instantiate witnesses. -/
def fullTable : List Row :=
  [coordRow,
   { primaryType := some "THEFT", district := some "2",
     locationDescription := some "STREET", arrest := false, domestic := false,
     latitude := some 41, longitude := some (-87) },
   { primaryType := some "BATTERY", district := some "1",
     locationDescription := some "ALLEY", arrest := true, domestic := true,
     latitude := some 41, longitude := some (-87) }]

/-- A table of more than 5000 rows none of which has coordinates. -/
def bigTable : List Row := List.replicate 5001 (mkRow (some "THEFT") none none)

end Crimes

namespace Crimes

/-- Inserting into a sorted list is a permutation of consing. -/
theorem insertSorted_perm (x : String) (l : List String) :
    List.Perm (insertSorted x l) (x :: l) := by
  induction l with
  | nil => exact List.Perm.refl _
  | cons y ys ih =>
    unfold insertSorted
    split
    · exact List.Perm.refl _
    · exact (List.Perm.cons y ih).trans (List.Perm.swap x y ys)

/-- Sorting permutes the list. -/
theorem sortStrings_perm (l : List String) : List.Perm (sortStrings l) l := by
  induction l with
  | nil => exact List.Perm.refl _
  | cons x xs ih =>
    exact (insertSorted_perm x (sortStrings xs)).trans (List.Perm.cons x ih)

/-- C4: flag normalization is a total function into Bool: a raw value whose
stripped form matches one of "true", "t", "1", "yes", "y" case-insensitively
maps to true, and every other value, including "false", "", "0", "no", "n"
and null, maps to false; the result is a Bool, never null. -/
theorem flag_normalization_total (r : Raw) :
    (normalizeFlag r = true ↔
      ∃ tok ∈ (["true", "t", "1", "yes", "y"] : List String),
        eqCaseInsensitive (pythonStrip (pyStr r)) tok = true) ∧
    normalizeFlag (Raw.rstr "false") = false ∧
    normalizeFlag (Raw.rstr "") = false ∧
    normalizeFlag (Raw.rstr "0") = false ∧
    normalizeFlag (Raw.rstr "no") = false ∧
    normalizeFlag (Raw.rstr "n") = false ∧
    normalizeFlag Raw.rnull = false ∧
    normalizeFlag (Raw.rstr "true") = true ∧
    normalizeFlag (Raw.rstr "True") = true ∧
    normalizeFlag (Raw.rstr "TRUE") = true ∧
    normalizeFlag (Raw.rstr "t") = true ∧
    normalizeFlag (Raw.rstr "1") = true ∧
    normalizeFlag (Raw.rstr "yes") = true ∧
    normalizeFlag (Raw.rstr "Y") = true := by
  refine ⟨?_, by decide, by decide, by decide, by decide, by decide, by decide,
    by decide, by decide, by decide, by decide, by decide, by decide, by decide⟩
  unfold normalizeFlag eqCaseInsensitive truthTokens
  constructor
  · intro h
    simp only [decide_eq_true_eq, List.mem_cons, List.not_mem_nil, or_false] at h
    rcases h with h | h | h | h | h
    · exact ⟨"true", by simp, by rw [h]; decide⟩
    · exact ⟨"t", by simp, by rw [h]; decide⟩
    · exact ⟨"1", by simp, by rw [h]; decide⟩
    · exact ⟨"yes", by simp, by rw [h]; decide⟩
    · exact ⟨"y", by simp, by rw [h]; decide⟩
  · rintro ⟨tok, htok, heq⟩
    simp only [List.mem_cons, List.not_mem_nil, or_false] at htok
    simp only [beq_iff_eq] at heq
    simp only [decide_eq_true_eq, List.mem_cons, List.not_mem_nil, or_false]
    rcases htok with h | h | h | h | h <;> subst h <;> rw [heq] <;> simp [pyUpper]

/-- C2 counterexample: the Feature Deriver leaves a float-encoded district
10.0 as the string "10.0"; the ".0" artifact is not stripped, and a string
cell "10.0" is likewise kept verbatim. -/
theorem geo_id_not_stripped_cex :
    getCol (derive parse0 [("District", Col.rawCol [Raw.rfloat 10])]) "District" =
      some (Col.rawCol [Raw.rstr "10.0"]) ∧
    getCol (derive parse0 [("District", Col.rawCol [Raw.rstr "10.0"])]) "District" =
      some (Col.rawCol [Raw.rstr "10.0"]) ∧
    Raw.rstr "10.0" ≠ Raw.rstr "10" := by decide

/-- C2 amended: the geographic ID normalization is astype("string"): every
value becomes its pandas string form verbatim, with no trimming and no
stripping of float artifacts — a numeric 10.0 becomes "10.0", a string is
kept as is, an integer prints without ".0", and null stays null. -/
theorem geo_id_astype_verbatim (n : Int) (s : String) :
    astypeStringCell (Raw.rfloat n) = Raw.rstr (toString n ++ ".0") ∧
    astypeStringCell (Raw.rstr s) = Raw.rstr s ∧
    astypeStringCell (Raw.rint n) = Raw.rstr (toString n) ∧
    astypeStringCell Raw.rnull = Raw.rnull :=
  ⟨rfl, rfl, rfl, rfl⟩

/-- C3 counterexample: in src/app.py, a registered year whose file is
inaccessible makes load_year_data raise the read failure, and an
unregistered year raises KeyError — neither returns an empty table with a
signal. -/
theorem load_missing_raises_cex :
    load_year_data emptyFS 2015 = Except.error LoadError.fileNotFound ∧
    load_year_data emptyFS 2021 = Except.error LoadError.keyError :=
  ⟨rfl, rfl⟩

/-- C3 amended: only the fp3 variant loader recovers from a registered year
whose file is inaccessible, returning an empty table together with an error
signal; the main loader propagates the read failure, and an unregistered
year raises KeyError in both loaders. -/
theorem load_unavailable_behavior (parse : Raw → Option TS) (fs : FileSystem)
    (year : Int) (path : String) :
    (yearToFile year = some path → fs.find path = none →
      load_year_data_fp3 parse fs year = Except.ok ([], true) ∧
      load_year_data fs year = Except.error LoadError.fileNotFound) ∧
    (yearToFile year = none →
      load_year_data fs year = Except.error LoadError.keyError ∧
      load_year_data_fp3 parse fs year = Except.error LoadError.keyError) := by
  constructor
  · intro hreg hmiss
    constructor <;> simp [load_year_data_fp3, load_year_data, hreg, hmiss]
  · intro hnone
    constructor <;> simp [load_year_data, load_year_data_fp3, hnone]

/-- Witness for the amended C3 theorem at the concrete years 2015
(registered, file missing) and 2021 (unregistered). -/
theorem load_unavailable_witness :
    load_year_data_fp3 parse0 emptyFS 2015 = Except.ok ([], true) ∧
    load_year_data emptyFS 2015 = Except.error LoadError.fileNotFound ∧
    load_year_data emptyFS 2021 = Except.error LoadError.keyError ∧
    load_year_data_fp3 parse0 emptyFS 2021 = Except.error LoadError.keyError := by
  have h1 := load_unavailable_behavior parse0 emptyFS 2015 "project/data/Crimes_2015.csv"
  have h2 := load_unavailable_behavior parse0 emptyFS 2021 ""
  exact ⟨(h1.1 (by decide) rfl).1, (h1.1 (by decide) rfl).2,
    (h2.2 (by decide)).1, (h2.2 (by decide)).2⟩

/-- C8: spatial sub-sampling is deterministic: with a fixed random_state of
42, the sample is a function of the input table alone — two invocations
under arbitrary, possibly different, ambient random states return the same
rows. -/
theorem sample_deterministic (g1 g2 n : Nat) (xs : List Row) :
    (sampleStep (some 42) g1 n xs).1 = (sampleStep (some 42) g2 n xs).1 ∧
    (sampleStep (some 42) g1 n xs).1 = sampleCore 42 n xs :=
  ⟨rfl, rfl⟩

/-- C1 counterexample: on a table whose District column contains a null,
filtering with the full set of available district values drops the null row
while the empty predicate keeps it, so the two differ. -/
theorem selectall_cex :
    applyIsin Row.district (availableVals Row.district cexTable) cexTable ≠
      applyIsin Row.district [] cexTable := by decide

/-- C1 amended: a predicate set equal to the full set of available distinct
values of a dimension is equivalent to the empty predicate on every table
whose rows are all non-null in that column (the available values may come
from any superset table); rows with a null cell are dropped by the full-set
predicate but kept by the empty one. -/
theorem selectall_equiv (get : Row → Option String) (base rows : List Row)
    (hsub : ∀ r ∈ rows, r ∈ base) (h : ∀ r ∈ rows, (get r).isSome = true) :
    applyIsin get (availableVals get base) rows = applyIsin get [] rows := by
  have hrhs : applyIsin get [] rows = rows := by simp [applyIsin]
  rw [hrhs]
  unfold applyIsin
  split
  · rfl
  · apply List.filter_eq_self.mpr
    intro r hr
    obtain ⟨v, hv⟩ := Option.isSome_iff_exists.mp (h r hr)
    have hmem : v ∈ availableVals get base := by
      unfold availableVals
      rw [(sortStrings_perm _).mem_iff, List.mem_dedup]
      exact List.mem_filterMap.mpr ⟨r, hsub r hr, hv⟩
    simp [hv, hmem]

/-- Witness for the amended C1 theorem on a concrete three-row table with
no null districts. -/
theorem selectall_equiv_witness :
    applyIsin Row.district (availableVals Row.district fullTable) fullTable =
      applyIsin Row.district [] fullTable :=
  selectall_equiv Row.district fullTable fullTable (fun _ hr => hr) (by decide)

/-- C9: a non-empty predicate set on any dimension excludes every row whose
cell in that column is null: membership testing never matches a null
cell. -/
theorem isin_excludes_nulls (get : Row → Option String) (sel : List String)
    (rows : List Row) (hsel : sel ≠ []) :
    ∀ r ∈ applyIsin get sel rows, (get r).isSome = true := by
  intro r hr
  unfold applyIsin at hr
  rw [if_neg (by simpa using hsel)] at hr
  have hmem := List.mem_filter.mp hr
  rcases hget : get r with _ | v
  · rw [hget] at hmem
    simp at hmem
  · simp [hget]

/-- Witness for C9 at a concrete table and selection. -/
theorem isin_excludes_nulls_witness :
    (Row.district (mkRow (some "THEFT") (some "1") none)).isSome = true :=
  isin_excludes_nulls Row.district ["1"] cexTable (by decide)
    (mkRow (some "THEFT") (some "1") none) (by decide)

/-- The rows matching one group key are counted by the multiset of non-null
key cells. -/
theorem length_filter_eq_count (rows : List Row) (k : String) :
    (rows.filter (fun r => r.primaryType == some k)).length =
      (rows.filterMap Row.primaryType).count k := by
  induction rows with
  | nil => rfl
  | cons r rs ih =>
    cases hpt : r.primaryType with
    | none => simp [List.filter_cons, List.filterMap_cons, hpt, ih]
    | some v =>
      by_cases hv : v = k
      · subst hv
        simp [List.filter_cons, List.filterMap_cons, hpt, ih, List.count_cons]
      · simp [List.filter_cons, List.filterMap_cons, hpt, ih, List.count_cons, hv]

/-- Dropping nulls from an all-non-null column keeps every row. -/
theorem filterMap_length_of_all_some (rows : List Row)
    (h : ∀ r ∈ rows, (r.primaryType).isSome = true) :
    (rows.filterMap Row.primaryType).length = rows.length := by
  induction rows with
  | nil => rfl
  | cons r rs ih =>
    obtain ⟨v, hv⟩ := Option.isSome_iff_exists.mp (h r (by simp))
    simp only [List.filterMap_cons, hv, List.length_cons]
    rw [ih (fun x hx => h x (by simp [hx]))]

/-- Every group key is witnessed by a row of the table. -/
theorem groupKeys_mem_exists {rows : List Row} {k : String}
    (hk : k ∈ groupKeys rows) : ∃ r ∈ rows, r.primaryType = some k := by
  unfold groupKeys at hk
  exact List.mem_filterMap.mp (List.mem_dedup.mp ((sortStrings_perm _).mem_iff.mp hk))

/-- C5 counterexample: on a table whose only row has a null Primary Type,
the groupby drops the null key, so the per-group counts sum to 0 while the
table has 1 row. -/
theorem countby_sum_cex :
    ((countBy nullTypeTable).map Prod.snd).sum ≠ nullTypeTable.length := by decide

/-- C5 amended: the per-group counts of count_by(primary_type) sum to the
number of rows with a non-null primary type (pandas groupby drops null
keys); in particular they sum to the total row count whenever every row has
a non-null primary type. -/
theorem countby_sum (rows : List Row) :
    ((countBy rows).map Prod.snd).sum = (rows.filterMap Row.primaryType).length ∧
    ((∀ r ∈ rows, (r.primaryType).isSome = true) →
      ((countBy rows).map Prod.snd).sum = rows.length) := by
  have hmain : ((countBy rows).map Prod.snd).sum =
      (rows.filterMap Row.primaryType).length := by
    unfold countBy groupKeys
    rw [List.map_map]
    have h2 : ((sortStrings ((rows.filterMap Row.primaryType).dedup)).map
          (Prod.snd ∘ fun k =>
            (k, (rows.filter (fun r => r.primaryType == some k)).length))) =
        (sortStrings ((rows.filterMap Row.primaryType).dedup)).map
          (fun k => (rows.filterMap Row.primaryType).count k) :=
      List.map_congr_left (fun k _ => length_filter_eq_count rows k)
    rw [h2]
    rw [((sortStrings_perm ((rows.filterMap Row.primaryType).dedup)).map
      (fun k => (rows.filterMap Row.primaryType).count k)).sum_eq]
    exact List.sum_map_count_dedup_eq_length _
  exact ⟨hmain, fun h => by rw [hmain]; exact filterMap_length_of_all_some rows h⟩

/-- Witness for the amended C5 theorem on a concrete all-non-null table. -/
theorem countby_sum_witness :
    ((countBy fullTable).map Prod.snd).sum = fullTable.length :=
  (countby_sum fullTable).2 (by decide)

/-- C7: every arrest rate of rate_by(primary_type, arrest) lies in [0, 1],
and a primary type with no matching row yields no group at all: its rate is
absent rather than defined. -/
theorem rateby_bounds (rows : List Row) :
    (∀ p ∈ rateBy rows, 0 ≤ p.2 ∧ p.2 ≤ 1) ∧
    (∀ k : String, (∀ r ∈ rows, r.primaryType ≠ some k) →
      ∀ q : ℚ, (k, q) ∉ rateBy rows) := by
  constructor
  · rintro ⟨k, q⟩ hp
    obtain ⟨k0, hk0, heq⟩ := List.mem_map.mp hp
    have hk : k0 = k := congrArg Prod.fst heq
    have hq : ((rows.filter
          (fun r => r.primaryType == some k0 && r.arrest)).length : ℚ) /
        ((rows.filter (fun r => r.primaryType == some k0)).length : ℚ) = q :=
      congrArg Prod.snd heq
    obtain ⟨r, hr, hpt⟩ := groupKeys_mem_exists hk0
    have hn : 0 < (rows.filter (fun r => r.primaryType == some k0)).length := by
      refine List.length_pos.mpr (List.ne_nil_of_mem (List.mem_filter.mpr ⟨hr, ?_⟩))
      simp [hpt]
    have hab : (rows.filter
          (fun r => r.primaryType == some k0 && r.arrest)).length ≤
        (rows.filter (fun r => r.primaryType == some k0)).length := by
      refine List.Sublist.length_le (List.monotone_filter_right rows ?_)
      intro a ha
      rw [Bool.and_eq_true] at ha
      exact ha.1
    rw [← hq]
    constructor
    · exact div_nonneg (Nat.cast_nonneg _) (Nat.cast_nonneg _)
    · rw [div_le_one (by exact_mod_cast hn)]
      exact_mod_cast hab
  · intro k hnone q hq
    obtain ⟨k0, hk0, heq⟩ := List.mem_map.mp hq
    have hk : k0 = k := congrArg Prod.fst heq
    subst hk
    obtain ⟨r, hr, hpt⟩ := groupKeys_mem_exists hk0
    exact hnone r hr hpt

/-- Witness for C7 at a concrete table: the THEFT arrest rate lies in the
unit interval, and the absent type ARSON is not a group. -/
theorem rateby_bounds_witness :
    (0 ≤ (((fullTable.filter
          (fun r => r.primaryType == some "THEFT" && r.arrest)).length : ℚ) /
        ((fullTable.filter (fun r => r.primaryType == some "THEFT")).length : ℚ)) ∧
      (((fullTable.filter
          (fun r => r.primaryType == some "THEFT" && r.arrest)).length : ℚ) /
        ((fullTable.filter (fun r => r.primaryType == some "THEFT")).length : ℚ)) ≤ 1) ∧
    ("ARSON", (0 : ℚ)) ∉ rateBy fullTable :=
  ⟨(rateby_bounds fullTable).1 _ (List.mem_map.mpr ⟨"THEFT", by decide, rfl⟩),
   (rateby_bounds fullTable).2 "ARSON" (by decide) 0⟩

/-- The seeded selection keeps the number of rows when given enough fuel. -/
theorem permAux_length {α : Type} (fuel : Nat) (s : Nat) (xs : List α)
    (h : xs.length ≤ fuel) : (permAux fuel s xs).length = xs.length := by
  induction fuel generalizing s xs with
  | zero =>
    have hnil : xs = [] := List.eq_nil_of_length_eq_zero (Nat.le_zero.mp h)
    subst hnil
    rfl
  | succ fuel ih =>
    unfold permAux
    split
    · rename_i h0
      simp [h0]
    · rename_i h0
      have hpos : 0 < xs.length := Nat.pos_of_ne_zero h0
      have hlt : s % xs.length < xs.length := Nat.mod_lt s hpos
      simp only [List.length_cons]
      rw [ih (lcgNext s) (xs.eraseIdx (s % xs.length))
        (by rw [List.length_eraseIdx_of_lt hlt]; omega)]
      rw [List.length_eraseIdx_of_lt hlt]
      omega

/-- Every row of the seeded selection comes from the input table. -/
theorem permAux_mem {α : Type} {fuel s : Nat} {xs : List α} {y : α}
    (hy : y ∈ permAux fuel s xs) : y ∈ xs := by
  induction fuel generalizing s xs with
  | zero => simp [permAux] at hy
  | succ fuel ih =>
    unfold permAux at hy
    split at hy
    · simp at hy
    · rcases List.mem_cons.mp hy with heq | htail
      · rw [heq]
        exact List.get_mem xs _ _
      · exact (List.eraseIdx_sublist xs _).subset (ih htail)

/-- C10: whenever the spatial sub-sampling returns, the result has at most
5000 rows, every returned row has non-null coordinates, and when the
filtered table has more than 5000 rows but fewer than 5000
coordinate-complete rows the operation fails with ValueError, because the
sample size is computed from the total filtered row count rather than the
coordinate-complete count. -/
theorem spatial_sample_bounds (rows : List Row) :
    (∀ s, spatialSample rows = Except.ok s →
      s.length ≤ 5000 ∧
      ∀ r ∈ s, r.latitude.isSome = true ∧ r.longitude.isSome = true) ∧
    (rows.length > 5000 → (dropnaLatLon rows).length < 5000 →
      spatialSample rows = Except.error SampleError.valueError) := by
  have hcoord : ∀ r ∈ dropnaLatLon rows,
      r.latitude.isSome = true ∧ r.longitude.isSome = true := by
    intro r hr
    have h1 := (List.mem_filter.mp hr).2
    rw [Bool.and_eq_true] at h1
    exact h1
  constructor
  · intro s hs
    unfold spatialSample at hs
    by_cases hlen : rows.length > min 5000 rows.length
    · rw [if_pos hlen] at hs
      unfold sampleCore at hs
      by_cases hn : min 5000 rows.length > (dropnaLatLon rows).length
      · rw [if_pos hn] at hs
        exact absurd hs (by simp)
      · rw [if_neg hn] at hs
        have hseq := Except.ok.inj hs
        constructor
        · rw [← hseq]
          exact le_trans (List.length_take_le _ _) (Nat.min_le_left _ _)
        · intro r hr
          rw [← hseq] at hr
          exact hcoord r (permAux_mem (List.mem_of_mem_take hr))
    · rw [if_neg hlen] at hs
      have hseq := Except.ok.inj hs
      constructor
      · rw [← hseq]
        have h1 : rows.length ≤ 5000 := by omega
        exact le_trans (List.length_filter_le _ _) h1
      · intro r hr
        rw [← hseq] at hr
        exact hcoord r hr
  · intro hbig hsmall
    have hmin : min 5000 rows.length = 5000 := Nat.min_eq_left (le_of_lt hbig)
    unfold spatialSample
    rw [if_pos (by omega)]
    unfold sampleCore
    rw [if_pos (by omega)]

/-- Witness for C10: the 5001-row coordinate-free table makes the sampler
fail, and on a small table the returned rows are coordinate-complete and
within the cap. -/
theorem spatial_sample_bounds_witness :
    spatialSample bigTable = Except.error SampleError.valueError ∧
    (dropnaLatLon fullTable).length ≤ 5000 ∧
    (coordRow.latitude.isSome = true ∧ coordRow.longitude.isSome = true) := by
  have hbig : bigTable.length > 5000 := by
    unfold bigTable
    rw [List.length_replicate]
    omega
  have hdrop : dropnaLatLon bigTable = [] := by
    unfold dropnaLatLon bigTable
    refine List.filter_eq_nil_iff.mpr ?_
    intro a ha
    rw [List.eq_of_mem_replicate ha]
    decide
  refine ⟨(spatial_sample_bounds bigTable).2 hbig (by rw [hdrop]; decide), ?_, ?_⟩
  · exact ((spatial_sample_bounds fullTable).1 (dropnaLatLon fullTable) rfl).1
  · exact ((spatial_sample_bounds fullTable).1 (dropnaLatLon fullTable) rfl).2
      coordRow (by decide)

/-- Reading back the column just assigned. -/
theorem getCol_setCol_self (df : DTable) (name : String) (c : Col) :
    getCol (setCol df name c) name = some c := by
  induction df with
  | nil => simp [setCol, getCol]
  | cons p rest ih =>
    obtain ⟨n, c0⟩ := p
    unfold setCol
    by_cases h : n = name
    · rw [if_pos h]
      unfold getCol
      rw [if_pos h]
    · rw [if_neg h]
      unfold getCol
      rw [if_neg h]
      exact ih

/-- Assigning one column leaves every other column unchanged. -/
theorem getCol_setCol_ne (df : DTable) (name n2 : String) (c : Col)
    (h : n2 ≠ name) : getCol (setCol df name c) n2 = getCol df n2 := by
  induction df with
  | nil =>
    unfold setCol getCol
    rw [if_neg (fun hh => h hh.symm)]
    rfl
  | cons p rest ih =>
    obtain ⟨n, c0⟩ := p
    unfold setCol
    by_cases hn : n = name
    · rw [if_pos hn]
      unfold getCol
      have hn2 : ¬ n = n2 := fun hh => h (hh ▸ hn)
      rw [if_neg hn2, if_neg hn2]
    · rw [if_neg hn]
      unfold getCol
      by_cases h2 : n = n2
      · rw [if_pos h2, if_pos h2]
      · rw [if_neg h2, if_neg h2]
        exact ih

/-- A successful column lookup returns one of the stored columns. -/
theorem getCol_mem {df : DTable} {name : String} {c : Col}
    (h : getCol df name = some c) : ∃ p ∈ df, p.2 = c := by
  induction df with
  | nil => simp [getCol] at h
  | cons p rest ih =>
    obtain ⟨n, c0⟩ := p
    unfold getCol at h
    by_cases hn : n = name
    · rw [if_pos hn] at h
      exact ⟨(n, c0), by simp, (Option.some.inj h)⟩
    · rw [if_neg hn] at h
      obtain ⟨q, hq, he⟩ := ih h
      exact ⟨q, by simp [hq], he⟩

/-- Column assignment preserves any columnwise invariant the new column
satisfies. -/
theorem setCol_forall {df : DTable} {name : String} {c : Col} {P : Col → Prop}
    (hd : ∀ p ∈ df, P p.2) (hc : P c) : ∀ p ∈ setCol df name c, P p.2 := by
  induction df with
  | nil =>
    intro p hp
    unfold setCol at hp
    simp at hp
    rw [hp]
    exact hc
  | cons q rest ih =>
    obtain ⟨n, c0⟩ := q
    intro p hp
    unfold setCol at hp
    by_cases hn : n = name
    · rw [if_pos hn] at hp
      rcases List.mem_cons.mp hp with heq | htail
      · rw [heq]
        exact hc
      · exact hd p (by simp [htail])
    · rw [if_neg hn] at hp
      rcases List.mem_cons.mp hp with heq | htail
      · rw [heq]
        exact hd (n, c0) (by simp)
      · exact ih (fun r hr => hd r (by simp [hr])) p htail

/-- A guarded column rewrite leaves every other column unchanged. -/
theorem getCol_applyIfPresent_ne (f : Col → Col) (name n2 : String)
    (df : DTable) (h : n2 ≠ name) :
    getCol (applyIfPresent f name df) n2 = getCol df n2 := by
  unfold applyIfPresent
  cases getCol df name with
  | none => rfl
  | some c => exact getCol_setCol_ne df name n2 (f c) h

/-- Column assignment preserves uniform column length when the new column
has that length. -/
theorem setCol_len {df : DTable} {name : String} {c : Col} {n : Nat}
    (hd : ∀ p ∈ df, colLen p.2 = n) (hc : colLen c = n) :
    ∀ p ∈ setCol df name c, colLen p.2 = n :=
  @setCol_forall df name c (fun col => colLen col = n) hd hc

/-- A guarded length-preserving column rewrite keeps uniform column
length. -/
theorem applyIfPresent_len {f : Col → Col} (hf : ∀ c, colLen (f c) = colLen c)
    {name : String} {df : DTable} {n : Nat} (hd : ∀ p ∈ df, colLen p.2 = n) :
    ∀ p ∈ applyIfPresent f name df, colLen p.2 = n := by
  unfold applyIfPresent
  cases hg : getCol df name with
  | none => exact hd
  | some c =>
    obtain ⟨q, hq, he⟩ := getCol_mem hg
    exact setCol_len hd (by rw [hf]; exact he ▸ hd q hq)

/-- astype("string") keeps the column length. -/
theorem colLen_stringCol (c : Col) : colLen (stringCol c) = colLen c := by
  cases c <;> simp [stringCol, colLen]

/-- Flag normalization keeps the column length. -/
theorem colLen_flagCol (c : Col) : colLen (flagCol c) = colLen c := by
  cases c <;> simp [flagCol, colLen]

/-- to_numeric keeps the column length. -/
theorem colLen_toNumericCol (c : Col) : colLen (toNumericCol c) = colLen c := by
  cases c <;> simp [toNumericCol, colLen]

/-- to_numeric is idempotent on one cell. -/
theorem toNumericCell_idem (r : Raw) :
    toNumericCell (toNumericCell r) = toNumericCell r := by
  cases r with
  | rstr s =>
    unfold toNumericCell
    cases h : (pythonStrip s).toInt? <;> simp [toNumericCell, h]
  | rint n => rfl
  | rfloat n => rfl
  | rbool b => cases b <;> rfl
  | rnull => rfl

/-- to_numeric is idempotent on a column. -/
theorem toNumericCol_idem (c : Col) :
    toNumericCol (toNumericCol c) = toNumericCol c := by
  cases c with
  | rawCol vs =>
    simp only [toNumericCol, List.map_map]
    exact congrArg Col.rawCol (List.map_congr_left (fun r _ => toNumericCell_idem r))
  | dtCol vs => rfl

/-- When a Date column is present, temporal derivation assigns Date and the
five derived columns the values computed from the parsed timestamps. -/
theorem deriveTemporal_date_cols (parse : Raw → Option TS) (df : DTable)
    (c : Col) (h : getCol df "Date" = some c) :
    getCol (deriveTemporal parse df) "Date" =
      some (Col.dtCol (toDatetime parse c)) ∧
    getCol (deriveTemporal parse df) "Year" =
      some (Col.rawCol ((toDatetime parse c).map cellYear)) ∧
    getCol (deriveTemporal parse df) "Month" =
      some (Col.rawCol ((toDatetime parse c).map cellMonth)) ∧
    getCol (deriveTemporal parse df) "YearMonth" =
      some (Col.dtCol ((toDatetime parse c).map monthStart)) ∧
    getCol (deriveTemporal parse df) "Weekday" =
      some (Col.rawCol ((toDatetime parse c).map cellWeekday)) ∧
    getCol (deriveTemporal parse df) "Hour" =
      some (Col.rawCol ((toDatetime parse c).map cellHour)) := by
  refine ⟨?_, ?_, ?_, ?_, ?_, ?_⟩ <;> simp only [deriveTemporal, h]
  · rw [getCol_setCol_ne _ "Hour" "Date" _ (by decide),
      getCol_setCol_ne _ "Weekday" "Date" _ (by decide),
      getCol_setCol_ne _ "YearMonth" "Date" _ (by decide),
      getCol_setCol_ne _ "Month" "Date" _ (by decide),
      getCol_setCol_ne _ "Year" "Date" _ (by decide)]
    exact getCol_setCol_self _ _ _
  · rw [getCol_setCol_ne _ "Hour" "Year" _ (by decide),
      getCol_setCol_ne _ "Weekday" "Year" _ (by decide),
      getCol_setCol_ne _ "YearMonth" "Year" _ (by decide),
      getCol_setCol_ne _ "Month" "Year" _ (by decide)]
    exact getCol_setCol_self _ _ _
  · rw [getCol_setCol_ne _ "Hour" "Month" _ (by decide),
      getCol_setCol_ne _ "Weekday" "Month" _ (by decide),
      getCol_setCol_ne _ "YearMonth" "Month" _ (by decide)]
    exact getCol_setCol_self _ _ _
  · rw [getCol_setCol_ne _ "Hour" "YearMonth" _ (by decide),
      getCol_setCol_ne _ "Weekday" "YearMonth" _ (by decide)]
    exact getCol_setCol_self _ _ _
  · rw [getCol_setCol_ne _ "Hour" "Weekday" _ (by decide)]
    exact getCol_setCol_self _ _ _
  · exact getCol_setCol_self _ _ _

/-- Without a Date column, temporal derivation touches only Year. -/
theorem deriveTemporal_nodate_other {parse : Raw → Option TS} {df : DTable}
    (h : getCol df "Date" = none) (nm : String) (hnm : nm ≠ "Year") :
    getCol (deriveTemporal parse df) nm = getCol df nm := by
  simp only [deriveTemporal, h]
  cases hy : getCol df "Year" with
  | none => rfl
  | some c => exact getCol_setCol_ne _ "Year" nm _ hnm

/-- Without a Date column, a present Year column is coerced to numeric. -/
theorem deriveTemporal_nodate_year_some {parse : Raw → Option TS} {df : DTable}
    {c : Col} (h : getCol df "Date" = none) (hy : getCol df "Year" = some c) :
    getCol (deriveTemporal parse df) "Year" = some (toNumericCol c) := by
  simp only [deriveTemporal, h, hy]
  exact getCol_setCol_self _ _ _

/-- Without Date and Year columns, temporal derivation changes nothing. -/
theorem deriveTemporal_nodate_year_none {parse : Raw → Option TS} {df : DTable}
    (h : getCol df "Date" = none) (hy : getCol df "Year" = none) :
    getCol (deriveTemporal parse df) "Year" = none := by
  simp only [deriveTemporal, h, hy]

/-- The geographic and flag steps of derive do not touch any other
column. -/
theorem getCol_derive_eq_dT (parse : Raw → Option TS) (df : DTable)
    (nm : String) (h1 : nm ≠ "District") (h2 : nm ≠ "Ward")
    (h3 : nm ≠ "Community Area") (h4 : nm ≠ "Beat") (h5 : nm ≠ "Arrest")
    (h6 : nm ≠ "Domestic") :
    getCol (derive parse df) nm = getCol (deriveTemporal parse df) nm := by
  unfold derive
  rw [getCol_applyIfPresent_ne _ "Domestic" nm _ h6,
    getCol_applyIfPresent_ne _ "Arrest" nm _ h5,
    getCol_applyIfPresent_ne _ "Beat" nm _ h4,
    getCol_applyIfPresent_ne _ "Community Area" nm _ h3,
    getCol_applyIfPresent_ne _ "Ward" nm _ h2,
    getCol_applyIfPresent_ne _ "District" nm _ h1]

/-- Temporal derivation keeps the length of every column. -/
theorem deriveTemporal_forall_len {parse : Raw → Option TS} {df : DTable}
    {n : Nat} (hd : ∀ p ∈ df, colLen p.2 = n) :
    ∀ p ∈ deriveTemporal parse df, colLen p.2 = n := by
  unfold deriveTemporal
  cases hc : getCol df "Date" with
  | some c =>
    obtain ⟨q, hq, he⟩ := getCol_mem hc
    have hcl : colLen c = n := he ▸ hd q hq
    have hts : (toDatetime parse c).length = n := by
      cases c <;> simp [toDatetime, colLen] at hcl ⊢ <;> simp [hcl]
    refine setCol_len ?_ (by simp [colLen, hts])
    refine setCol_len ?_ (by simp [colLen, hts])
    refine setCol_len ?_ (by simp [colLen, hts])
    refine setCol_len ?_ (by simp [colLen, hts])
    refine setCol_len ?_ (by simp [colLen, hts])
    exact setCol_len hd (by simp [colLen, hts])
  | none =>
    cases hy : getCol df "Year" with
    | none => exact hd
    | some c =>
      obtain ⟨q, hq, he⟩ := getCol_mem hy
      have hcl : colLen c = n := he ▸ hd q hq
      refine setCol_len hd ?_
      rw [colLen_toNumericCol]
      exact hcl

/-- The Feature Deriver keeps the length of every column. -/
theorem derive_forall_len {parse : Raw → Option TS} {df : DTable} {n : Nat}
    (hd : ∀ p ∈ df, colLen p.2 = n) :
    ∀ p ∈ derive parse df, colLen p.2 = n := by
  unfold derive
  exact applyIfPresent_len colLen_flagCol (applyIfPresent_len colLen_flagCol
    (applyIfPresent_len colLen_stringCol (applyIfPresent_len colLen_stringCol
      (applyIfPresent_len colLen_stringCol (applyIfPresent_len colLen_stringCol
        (deriveTemporal_forall_len hd))))))

/-- C6: on a table of uniform column length, derive keeps every column at
that length (so it never reduces the row count), and re-deriving the output
of derive leaves every derived temporal column (Year, Month, YearMonth,
Weekday, Hour) with the same values. -/
theorem derive_props (parse : Raw → Option TS) (df : DTable) (n : Nat)
    (h : ∀ p ∈ df, colLen p.2 = n) :
    (∀ p ∈ derive parse df, colLen p.2 = n) ∧
    (∀ nm ∈ (["Year", "Month", "YearMonth", "Weekday", "Hour"] : List String),
      getCol (derive parse (derive parse df)) nm =
        getCol (derive parse df) nm) := by
  refine ⟨derive_forall_len h, ?_⟩
  intro nm hnm
  have hnm5 : nm = "Year" ∨ nm = "Month" ∨ nm = "YearMonth" ∨
      nm = "Weekday" ∨ nm = "Hour" := by simpa using hnm
  have g1 : nm ≠ "District" := by rcases hnm5 with rfl | rfl | rfl | rfl | rfl <;> decide
  have g2 : nm ≠ "Ward" := by rcases hnm5 with rfl | rfl | rfl | rfl | rfl <;> decide
  have g3 : nm ≠ "Community Area" := by
    rcases hnm5 with rfl | rfl | rfl | rfl | rfl <;> decide
  have g4 : nm ≠ "Beat" := by rcases hnm5 with rfl | rfl | rfl | rfl | rfl <;> decide
  have g5 : nm ≠ "Arrest" := by rcases hnm5 with rfl | rfl | rfl | rfl | rfl <;> decide
  have g6 : nm ≠ "Domestic" := by
    rcases hnm5 with rfl | rfl | rfl | rfl | rfl <;> decide
  rw [getCol_derive_eq_dT parse (derive parse df) nm g1 g2 g3 g4 g5 g6]
  rw [getCol_derive_eq_dT parse df nm g1 g2 g3 g4 g5 g6]
  cases hc : getCol df "Date" with
  | some c =>
    have hd1 : getCol (derive parse df) "Date" =
        some (Col.dtCol (toDatetime parse c)) := by
      rw [getCol_derive_eq_dT parse df "Date" (by decide) (by decide) (by decide)
        (by decide) (by decide) (by decide)]
      exact (deriveTemporal_date_cols parse df c hc).1
    have hl := deriveTemporal_date_cols parse (derive parse df) _ hd1
    have hr0 := deriveTemporal_date_cols parse df c hc
    rcases hnm5 with rfl | rfl | rfl | rfl | rfl
    · rw [hl.2.1, hr0.2.1]
      rfl
    · rw [hl.2.2.1, hr0.2.2.1]
      rfl
    · rw [hl.2.2.2.1, hr0.2.2.2.1]
      rfl
    · rw [hl.2.2.2.2.1, hr0.2.2.2.2.1]
      rfl
    · rw [hl.2.2.2.2.2, hr0.2.2.2.2.2]
      rfl
  | none =>
    have hd1 : getCol (derive parse df) "Date" = none := by
      rw [getCol_derive_eq_dT parse df "Date" (by decide) (by decide) (by decide)
        (by decide) (by decide) (by decide)]
      rw [deriveTemporal_nodate_other hc "Date" (by decide)]
      exact hc
    by_cases hyr : nm = "Year"
    · subst hyr
      cases hy : getCol df "Year" with
      | none =>
        have hy1 : getCol (derive parse df) "Year" = none := by
          rw [getCol_derive_eq_dT parse df "Year" (by decide) (by decide) (by decide)
            (by decide) (by decide) (by decide)]
          exact deriveTemporal_nodate_year_none hc hy
        rw [deriveTemporal_nodate_year_none hd1 hy1,
          deriveTemporal_nodate_year_none hc hy]
      | some cy =>
        have hy1 : getCol (derive parse df) "Year" = some (toNumericCol cy) := by
          rw [getCol_derive_eq_dT parse df "Year" (by decide) (by decide) (by decide)
            (by decide) (by decide) (by decide)]
          exact deriveTemporal_nodate_year_some hc hy
        rw [deriveTemporal_nodate_year_some hd1 hy1,
          deriveTemporal_nodate_year_some hc hy, toNumericCol_idem]
    · rw [deriveTemporal_nodate_other hd1 nm hyr,
        deriveTemporal_nodate_other hc nm hyr]
      rw [getCol_derive_eq_dT parse df nm g1 g2 g3 g4 g5 g6,
        deriveTemporal_nodate_other hc nm hyr]

/-- Witness for C6 at a concrete one-column table. -/
theorem derive_props_witness :
    colLen (Col.dtCol [(none : Option TS)]) = 1 ∧
    getCol (derive parse0 (derive parse0 df0)) "Hour" =
      getCol (derive parse0 df0) "Hour" :=
  ⟨(derive_props parse0 df0 1 (by decide)).1 ("Date", Col.dtCol [none]) (by decide),
   (derive_props parse0 df0 1 (by decide)).2 "Hour" (by decide)⟩

end Crimes
